import Mathlib

/-!
Shallow embedding of `ResNet-Horovod/imagenet-resnet-horovod.py`.

Python floats carrying exact decimal constants and integer-valued
quantities are modelled as rationals (`ℚ`); Python `//` on non-negative
integers is `Nat` division; `np.round` is round-half-to-even; a Python
dict lookup that can raise `KeyError` is an `Option`; the `__main__`
dispatch is modelled as the list of externally visible actions it
performs, in order.
-/

namespace ResNetHorovod

/-- ImageNet training-set size, the literal `1281167` in `get_config`. -/
def datasetSize : ℕ := 1281167

/-- `np.round` on an exactly represented value: round half to even.
For the quotients appearing in this file the float64 division in the
source is exact to well below the half-integer distance, so this models
`np.round(1281167 / total_batch)` exactly. -/
def roundHalfEven (q : ℚ) : ℤ :=
  if Int.fract q < 1/2 then ⌊q⌋
  else if 1/2 < Int.fract q then ⌊q⌋ + 1
  else if ⌊q⌋ % 2 = 0 then ⌊q⌋ else ⌊q⌋ + 1

/-- `steps_per_epoch` in `get_config`: `50` with fake data, else
`int(np.round(1281167 / total_batch))`. -/
def stepsPerEpoch (fake : Bool) (total_batch : ℕ) : ℤ :=
  if fake then 50 else roundHalfEven ((datasetSize : ℚ) / (total_batch : ℚ))

/-- `BASE_LR = 0.1 * (total_batch // 256)` — note the integer floor
division in the source. -/
def BASE_LR (total_batch : ℕ) : ℚ := (1/10 : ℚ) * ((total_batch / 256 : ℕ) : ℚ)

/-- The `--validation` CLI choice. -/
inductive ValidationMode where
  | master
  | distributed
  deriving DecidableEq

/-- Callbacks assembled by `get_config`.  A `schedSetter` records the
hyperparameter name, the `(key, value)` schedule points, and the
`interp='linear'` / `step_based=True` flags of
`ScheduledHyperParamSetter`. -/
inductive Callback where
  | modelSaver (maxToKeep : ℕ)
  | estimatedTimeLeft
  | schedSetter (param : String) (points : List (ℤ × ℚ))
      (interpLinear : Bool) (stepBased : Bool)
  | inferenceRunnerMaster
  | inferenceRunnerDistributed
  deriving DecidableEq

/-- The epoch-based decay setter
`ScheduledHyperParamSetter('learning_rate',
  [(30, BASE_LR * 1e-1), (60, BASE_LR * 1e-2), (80, BASE_LR * 1e-3)])`. -/
def decayCallback (base : ℚ) : Callback :=
  .schedSetter "learning_rate"
    [(30, base * (1/10)), (60, base * (1/100)), (80, base * (1/1000))]
    false false

/-- The step-based warmup setter
`ScheduledHyperParamSetter('learning_rate',
  [(0, 0.1), (5 * steps_per_epoch, BASE_LR)], interp='linear',
  step_based=True)`. -/
def warmupCallback (spe : ℤ) (base : ℚ) : Callback :=
  .schedSetter "learning_rate" [(0, 1/10), (5 * spe, base)] true true

/-- The callbacks appended for `args.validation`: an `InferenceRunner`
on rank 0 only in `master` mode, a non-chief-only `InferenceRunner`
with `HorovodClassificationError` on every rank in `distributed`
mode. -/
def validationCallbacks (validation : Option ValidationMode) (rank : ℕ) :
    List Callback :=
  match validation with
  | some .master => if rank = 0 then [.inferenceRunnerMaster] else []
  | some .distributed => [.inferenceRunnerDistributed]
  | none => []

/-- The fields of the returned `TrainConfig` relevant here. -/
structure TrainConfig where
  callbacks : List Callback
  steps_per_epoch : ℤ
  max_epoch : ℕ
  deriving DecidableEq

/-- `get_config`: the callback list is built unconditionally (the
`callbacks = []` of the fake branch is overwritten), the warmup setter
is appended only when `BASE_LR > 0.1`, then the validation callbacks. -/
def getConfig (batch hvdSize rank : ℕ) (fake : Bool)
    (validation : Option ValidationMode) : TrainConfig :=
  { callbacks :=
      [Callback.modelSaver 100, Callback.estimatedTimeLeft,
       decayCallback (BASE_LR (batch * hvdSize))]
      ++ (if BASE_LR (batch * hvdSize) > 1/10 then
            [warmupCallback (stepsPerEpoch fake (batch * hvdSize))
               (BASE_LR (batch * hvdSize))] else [])
      ++ validationCallbacks validation rank
    steps_per_epoch := stepsPerEpoch fake (batch * hvdSize)
    max_epoch := if fake then 35 else 90 }

/-- Recognizes the step-based `ScheduledHyperParamSetter` (the warmup
callback is the only one the script ever builds with
`step_based=True`). -/
def isStepBasedSetter : Callback → Bool
  | .schedSetter _ _ _ sb => sb
  | _ => false

/-- Recognizes an epoch-based (`step_based=False`) setter of
`learning_rate`. -/
def isEpochLrSetter : Callback → Bool
  | .schedSetter p _ _ sb => p == "learning_rate" && !sb
  | _ => false

/-- `Model.__init__`: the block-count dictionary
`{50: [3,4,6,3], 101: [3,4,23,3], 152: [3,8,36,3]}`. -/
def num_blocks_dict : List (ℕ × List ℕ) :=
  [(50, [3, 4, 6, 3]), (101, [3, 4, 23, 3]), (152, [3, 8, 36, 3])]

/-- The dictionary lookup `{...}[depth]`; `none` models the `KeyError`
raised for a depth outside the table. -/
def numBlocks (depth : ℕ) : Option (List ℕ) := num_blocks_dict.lookup depth

/-- `Model.build_graph`: the cost returned by the base class is
multiplied by `self._loss_scale` when that scale differs from `1.0`,
and returned untouched otherwise.  The base cost is abstract (it comes
from the external `ImageNetModel`). -/
def buildGraph (baseCost lossScale : ℚ) : ℚ :=
  if lossScale ≠ 1 then baseCost * lossScale else baseCost

/-- `hvd.allreduce(average=False)` on the 2-vectors `[tot, cnt]` fed by
each worker: elementwise sum across workers. -/
def allreduceSum (xs : List (ℚ × ℚ)) : ℚ × ℚ :=
  ((xs.map Prod.fst).sum, (xs.map Prod.snd).sum)

/-- `HorovodClassificationError._after_inference`: each worker holds a
local `(total, wrong)` statistic; the pairs are summed across workers
by the allreduce and the error rate is `cnt * 1. / tot` on the summed
pair. -/
def horovodAfterInference (workers : List (ℚ × ℚ)) : ℚ :=
  let r := allreduceSum workers
  r.2 * 1 / r.1

/-- For comparison only, following the claim's words: first form each
worker's local rate `wrong/total`, then average those rates. -/
def meanOfLocalRates (workers : List (ℚ × ℚ)) : ℚ :=
  (workers.map fun p => p.2 / p.1).sum / (workers.length : ℚ)

/-- The parsed CLI flags of `__main__`. -/
structure Args where
  data : Option String
  logdir : String
  load : Option String
  fake : Bool
  depth : ℕ
  eval : Bool
  validation : Option ValidationMode
  batch : ℕ
  deriving DecidableEq

/-- The externally visible actions of `__main__`, in program order. -/
inductive Event where
  | buildValDataflow (batch : ℕ)
  | constructModel (depth : ℕ) (lossScale : ℚ)
  | loadModel (path : Option String)
  | runEval
  | assertFailure
  | initHorovod
  | setLoggerDir (dir : String)
  | buildConfig (cfg : TrainConfig)
  | launchTrain
  deriving DecidableEq

/-- The `__main__` dispatch after argument parsing.  With `--eval` the
script builds a batch-128 validation dataflow, constructs the model
(default `loss_scale=1.0`), and only then evaluates
`get_model_loader(args.load)`.  Otherwise it first runs
`assert args.load is None` (an assertion failure terminates the
process with a non-zero exit, so the trace ends there), then
initializes Horovod, sets the logger directory on rank 0, constructs
the model with `loss_scale=1.0/hvd.size()`, builds the config and
launches training. -/
def mainTrace (args : Args) (hvdSize rank : ℕ) : List Event :=
  if args.eval then
    [.buildValDataflow 128, .constructModel args.depth 1,
     .loadModel args.load, .runEval]
  else if args.load.isSome then
    [.assertFailure]
  else
    [.initHorovod]
    ++ (if rank = 0 then [.setLoggerDir args.logdir] else [])
    ++ [.constructModel args.depth (1 / (hvdSize : ℚ)),
        .buildConfig (getConfig args.batch hvdSize rank args.fake
          args.validation),
        .launchTrain]

end ResNetHorovod

namespace ResNetHorovod

/-- `roundHalfEven` never strays more than `1/2` from its argument. -/
theorem roundHalfEven_dist (q : ℚ) : |(roundHalfEven q : ℚ) - q| ≤ 1/2 := by
  have h0 : (0 : ℚ) ≤ Int.fract q := Int.fract_nonneg q
  have h1 : Int.fract q < 1 := Int.fract_lt_one q
  have hfl : (⌊q⌋ : ℚ) + Int.fract q = q := Int.floor_add_fract q
  unfold roundHalfEven
  split_ifs with hlt hgt heven <;> rw [abs_le] <;> push_cast <;>
    constructor <;> linarith

/-- `roundHalfEven q` is a nearest integer to `q`. -/
theorem roundHalfEven_nearest (q : ℚ) (m : ℤ) :
    |(roundHalfEven q : ℚ) - q| ≤ |(m : ℚ) - q| := by
  rcases eq_or_ne m (roundHalfEven q) with rfl | hne
  · exact le_refl _
  · have hd := roundHalfEven_dist q
    have hone : (1 : ℚ) ≤ |(m : ℚ) - (roundHalfEven q : ℚ)| := by
      have h1 : (1 : ℤ) ≤ |m - roundHalfEven q| :=
        Int.one_le_abs (sub_ne_zero.mpr hne)
      have h2 : ((|m - roundHalfEven q| : ℤ) : ℚ)
          = |(m : ℚ) - (roundHalfEven q : ℚ)| := by
        rw [Int.cast_abs]
        push_cast
        ring_nf
      calc (1 : ℚ) ≤ ((|m - roundHalfEven q| : ℤ) : ℚ) := by exact_mod_cast h1
        _ = _ := h2
    have htri : |(m : ℚ) - (roundHalfEven q : ℚ)|
        ≤ |(m : ℚ) - q| + |q - (roundHalfEven q : ℚ)| := abs_sub_le _ _ _
    have hcomm : |q - (roundHalfEven q : ℚ)| = |(roundHalfEven q : ℚ) - q| :=
      abs_sub_comm _ _
    linarith

/-- `BASE_LR` at `total_batch ≤ 256` is `0.1` only at exactly 256,
and `0` below. -/
theorem BASE_LR_le_256 (tb : ℕ) (h : tb ≤ 256) :
    BASE_LR tb = if tb = 256 then (1/10 : ℚ) else 0 := by
  rcases eq_or_lt_of_le h with rfl | hlt
  · simp [BASE_LR]
  · have hdiv : tb / 256 = 0 := Nat.div_eq_of_lt hlt
    have hne : tb ≠ 256 := Nat.ne_of_lt hlt
    simp [BASE_LR, hdiv, hne]

/-- `BASE_LR tb > 0.1` iff `tb ≥ 512`. -/
theorem BASE_LR_gt_iff (tb : ℕ) : BASE_LR tb > 1/10 ↔ 512 ≤ tb := by
  unfold BASE_LR
  constructor
  · intro h
    by_contra hc
    push_neg at hc
    have hd : tb / 256 ≤ 1 := by omega
    have hq : ((tb / 256 : ℕ) : ℚ) ≤ 1 := by exact_mod_cast hd
    nlinarith
  · intro h
    have h2 : 2 ≤ tb / 256 := by omega
    have hq : (2 : ℚ) ≤ ((tb / 256 : ℕ) : ℚ) := by exact_mod_cast h2
    nlinarith

end ResNetHorovod

namespace ResNetHorovod

/-- No callback produced for `--validation` is step-based. -/
theorem validation_no_step (v : Option ValidationMode) (r : ℕ) {cb : Callback}
    (hcb : cb ∈ validationCallbacks v r) : isStepBasedSetter cb = false := by
  rcases v with _ | v
  · simp [validationCallbacks] at hcb
  · cases v with
    | master =>
      simp only [validationCallbacks] at hcb
      split_ifs at hcb with hr
      · rw [List.mem_singleton] at hcb
        subst hcb
        rfl
      · simp at hcb
    | distributed =>
      simp only [validationCallbacks] at hcb
      rw [List.mem_singleton] at hcb
      subst hcb
      rfl

/-- Below total batch 512 the assembled callback list holds no
step-based setter at all. -/
theorem getConfig_all_no_step (batch hvdSize rank : ℕ) (fake : Bool)
    (validation : Option ValidationMode) (h : batch * hvdSize < 512) :
    ((getConfig batch hvdSize rank fake validation).callbacks.all
      fun cb => !(isStepBasedSetter cb)) = true := by
  rw [List.all_eq_true]
  intro cb hcb
  rw [Bool.not_eq_true']
  have hno : ¬ BASE_LR (batch * hvdSize) > 1/10 := by
    rw [BASE_LR_gt_iff]
    omega
  simp only [getConfig, if_neg hno, List.append_nil] at hcb
  rcases List.mem_append.mp hcb with h1 | h2
  · simp only [List.mem_cons, List.not_mem_nil, or_false] at h1
    rcases h1 with rfl | rfl | rfl <;> rfl
  · exact validation_no_step _ _ h2

/-- From total batch 512 on, the warmup callback is in the list. -/
theorem warmup_mem_getConfig (batch hvdSize rank : ℕ) (fake : Bool)
    (validation : Option ValidationMode) (h : 512 ≤ batch * hvdSize) :
    warmupCallback (stepsPerEpoch fake (batch * hvdSize))
        (BASE_LR (batch * hvdSize))
      ∈ (getConfig batch hvdSize rank fake validation).callbacks := by
  have hgt : BASE_LR (batch * hvdSize) > 1/10 := (BASE_LR_gt_iff _).mpr h
  simp only [getConfig, if_pos hgt]
  simp

/-- C1 (amended): for every per-worker batch size and worker count with
total_batch ≤ 256, `get_config` computes
`BASE_LR = 0.1 * (total_batch // 256)` — `0.1` exactly when
total_batch = 256 and `0.0` below — and adds no step-based warmup
callback. -/
theorem C1_theorem (batch hvdSize rank : ℕ) (fake : Bool)
    (validation : Option ValidationMode) (h : batch * hvdSize ≤ 256) :
    BASE_LR (batch * hvdSize)
      = (if batch * hvdSize = 256 then (1/10 : ℚ) else 0) ∧
    ((getConfig batch hvdSize rank fake validation).callbacks.all
      fun cb => !(isStepBasedSetter cb)) = true :=
  ⟨BASE_LR_le_256 _ h, getConfig_all_no_step _ _ _ _ _ (by omega)⟩

/-- C1 witness at per-worker batch 32 and 8 workers (total batch 256). -/
theorem C1_witness :
    BASE_LR (32 * 8) = (if 32 * 8 = 256 then (1/10 : ℚ) else 0) ∧
    ((getConfig 32 8 0 false none).callbacks.all
      fun cb => !(isStepBasedSetter cb)) = true :=
  C1_theorem 32 8 0 false none (by norm_num)

/-- C1 counterexample: at per-worker batch 32 on a single worker
(total batch 32 ≤ 256) the code computes `BASE_LR = 0.1 * (32 // 256)
= 0`, not `0.1` as the claim states. -/
theorem C1_counterexample :
    32 * 1 ≤ 256 ∧ ¬ BASE_LR (32 * 1) = 1/10 := by
  refine ⟨by norm_num, ?_⟩
  have h32 : (32 * 1) / 256 = 0 := by omega
  rw [BASE_LR, h32]
  norm_num

/-- C2 (amended): for total_batch > 256, `get_config` computes
`BASE_LR = 0.1 * (total_batch // 256)` (integer floor division, not the
exact ratio); the step-based linear warmup from `0.1` at step 0 to
`BASE_LR` at step `5 * steps_per_epoch` is added exactly when
`BASE_LR > 0.1`, i.e. when total_batch ≥ 512, and for
256 < total_batch < 512 no warmup callback is added. -/
theorem C2_theorem (batch hvdSize rank : ℕ) (fake : Bool)
    (validation : Option ValidationMode) (h : 256 < batch * hvdSize) :
    BASE_LR (batch * hvdSize)
      = (1/10 : ℚ) * ((batch * hvdSize / 256 : ℕ) : ℚ) ∧
    (512 ≤ batch * hvdSize →
      Callback.schedSetter "learning_rate"
          [(0, 1/10),
           (5 * stepsPerEpoch fake (batch * hvdSize),
            BASE_LR (batch * hvdSize))] true true
        ∈ (getConfig batch hvdSize rank fake validation).callbacks) ∧
    (batch * hvdSize < 512 →
      ((getConfig batch hvdSize rank fake validation).callbacks.all
        fun cb => !(isStepBasedSetter cb)) = true) := by
  refine ⟨rfl, ?_, ?_⟩
  · intro h5
    exact warmup_mem_getConfig _ _ _ _ _ h5
  · intro h5
    exact getConfig_all_no_step _ _ _ _ _ h5

/-- C2 witness at per-worker batch 64 and 8 workers (total batch 512):
the warmup setter is present. -/
theorem C2_witness :
    Callback.schedSetter "learning_rate"
        [(0, 1/10),
         (5 * stepsPerEpoch false (64 * 8), BASE_LR (64 * 8))] true true
      ∈ (getConfig 64 8 0 false none).callbacks :=
  (C2_theorem 64 8 0 false none (by norm_num)).2.1 (by norm_num)

/-- C2 counterexample: at per-worker batch 48 and 8 workers
(total batch 384 > 256) the code computes `BASE_LR = 0.1 * (384 // 256)
= 0.1`, not `0.1 * 384/256 = 0.15`, and adds no warmup callback even
though the claim requires one. -/
theorem C2_counterexample :
    256 < 48 * 8 ∧
    ¬ BASE_LR (48 * 8) = (1/10 : ℚ) * ((48 * 8 : ℚ) / 256) ∧
    ((getConfig 48 8 0 false none).callbacks.all
      fun cb => !(isStepBasedSetter cb)) = true := by
  refine ⟨by norm_num, ?_, getConfig_all_no_step 48 8 0 false none (by norm_num)⟩
  have h384 : (48 * 8) / 256 = 1 := by omega
  rw [BASE_LR, h384]
  norm_num

/-- The validation callbacks hold no epoch-based learning-rate setter. -/
theorem validation_no_epoch_setter (v : Option ValidationMode) (r : ℕ) :
    (validationCallbacks v r).filter isEpochLrSetter = [] := by
  rcases v with _ | v
  · rfl
  · cases v with
    | master =>
      simp only [validationCallbacks]
      split_ifs <;> rfl
    | distributed => rfl

/-- C3: the epoch-based `learning_rate` setters of the assembled
configuration are exactly one callback carrying the three points
`(30, BASE_LR*0.1)`, `(60, BASE_LR*0.01)`, `(80, BASE_LR*0.001)`, for
every batch size, worker count, rank, fake flag and validation mode. -/
theorem C3_theorem (batch hvdSize rank : ℕ) (fake : Bool)
    (validation : Option ValidationMode) :
    (getConfig batch hvdSize rank fake validation).callbacks.filter
        isEpochLrSetter
      = [Callback.schedSetter "learning_rate"
          [(30, BASE_LR (batch * hvdSize) * (1/10)),
           (60, BASE_LR (batch * hvdSize) * (1/100)),
           (80, BASE_LR (batch * hvdSize) * (1/1000))] false false] := by
  simp only [getConfig, List.filter_append,
    validation_no_epoch_setter validation rank, List.append_nil]
  split_ifs with hgt <;> rfl

end ResNetHorovod

namespace ResNetHorovod

/-- C4: the cross-worker error aggregator sums the `(total, wrong)`
pairs across workers before the single division, so it returns exactly
(Σ wrong)/(Σ total) whenever Σ total > 0; and this differs in general
from the mean of the per-worker local rates. -/
theorem C4_theorem (workers : List (ℚ × ℚ))
    (h : 0 < (workers.map Prod.fst).sum) :
    horovodAfterInference workers
      = (workers.map Prod.snd).sum / (workers.map Prod.fst).sum ∧
    ∃ ys : List (ℚ × ℚ), 0 < (ys.map Prod.fst).sum ∧
      horovodAfterInference ys ≠ meanOfLocalRates ys := by
  constructor
  · show (workers.map Prod.snd).sum * 1 / (workers.map Prod.fst).sum = _
    rw [mul_one]
  · refine ⟨[(2, 1), (4, 0)], by norm_num, ?_⟩
    norm_num [horovodAfterInference, allreduceSum, meanOfLocalRates]

/-- C4 witness: two workers holding `(total, wrong) = (2, 1)` and
`(4, 0)`; the aggregate is `(1+0)/(2+4)`. -/
theorem C4_witness :
    (0 : ℚ)
        < ([((2 : ℚ), (1 : ℚ)), ((4 : ℚ), (0 : ℚ))].map Prod.fst).sum ∧
    horovodAfterInference [((2 : ℚ), (1 : ℚ)), ((4 : ℚ), (0 : ℚ))]
      = ([((2 : ℚ), (1 : ℚ)), ((4 : ℚ), (0 : ℚ))].map Prod.snd).sum
        / ([((2 : ℚ), (1 : ℚ)), ((4 : ℚ), (0 : ℚ))].map Prod.fst).sum :=
  ⟨by norm_num, (C4_theorem [(2, 1), (4, 0)] (by norm_num)).1⟩

/-- C5 (amended): with `--eval` and `--load` unset the script performs
no assertion check at all — it builds the batch-128 validation
dataflow, constructs the model, and only then hands the unset
checkpoint path to the external model loader, so nothing fails before
model construction. -/
theorem C5_theorem (args : Args) (hvdSize rank : ℕ)
    (h1 : args.eval = true) (h2 : args.load = none) :
    mainTrace args hvdSize rank
      = [.buildValDataflow 128, .constructModel args.depth 1,
         .loadModel none, .runEval] ∧
    Event.assertFailure ∉ mainTrace args hvdSize rank := by
  constructor
  · simp [mainTrace, h1, h2]
  · simp [mainTrace, h1, h2]

/-- C5 witness: concrete `--eval` invocation without `--load`. -/
theorem C5_witness :
    mainTrace ⟨none, "train_log/tmp", none, false, 50, true, none, 32⟩ 8 0
      = [.buildValDataflow 128, .constructModel 50 1,
         .loadModel none, .runEval] ∧
    Event.assertFailure
        ∉ mainTrace ⟨none, "train_log/tmp", none, false, 50, true,
            none, 32⟩ 8 0 :=
  C5_theorem _ 8 0 rfl rfl

/-- C5 counterexample: invoked with `--eval` and `--load` unset, the
trace has no assertion failure and does construct the model — the
claimed failure before model construction does not happen. -/
theorem C5_counterexample :
    Event.assertFailure
        ∉ mainTrace ⟨none, "train_log/tmp", none, false, 50, true,
            none, 32⟩ 1 0 ∧
    Event.constructModel 50 1
        ∈ mainTrace ⟨none, "train_log/tmp", none, false, 50, true,
            none, 32⟩ 1 0 := by
  constructor
  · simp [mainTrace]
  · simp [mainTrace]

/-- C6: in training mode (no `--eval`) with `--load` set, the script
fails its assertion immediately: the trace is exactly the assertion
failure, with no Horovod initialization, no model construction and no
configuration build before it. -/
theorem C6_theorem (args : Args) (hvdSize rank : ℕ)
    (h1 : args.eval = false) (h2 : args.load.isSome = true) :
    mainTrace args hvdSize rank = [Event.assertFailure] ∧
    Event.initHorovod ∉ mainTrace args hvdSize rank ∧
    (∀ cfg : TrainConfig,
      Event.buildConfig cfg ∉ mainTrace args hvdSize rank) ∧
    (∀ (d : ℕ) (ls : ℚ),
      Event.constructModel d ls ∉ mainTrace args hvdSize rank) := by
  have ht : mainTrace args hvdSize rank = [Event.assertFailure] := by
    simp [mainTrace, h1, h2]
  refine ⟨ht, by rw [ht]; simp, fun cfg => by rw [ht]; simp,
    fun d ls => by rw [ht]; simp⟩

/-- C6 witness: concrete training invocation with `--load` set. -/
theorem C6_witness :
    mainTrace ⟨none, "train_log/tmp", some "ckpt", false, 50, false,
        none, 32⟩ 8 0
      = [Event.assertFailure] :=
  (C6_theorem ⟨none, "train_log/tmp", some "ckpt", false, 50, false,
      none, 32⟩ 8 0 rfl rfl).1

/-- C7: in non-fake mode `steps_per_epoch` is a nearest integer to
`1281167 / total_batch`: it is within 1/2 of the exact quotient and no
integer is closer. -/
theorem C7_theorem (total_batch : ℕ) (h : 0 < total_batch) :
    |(stepsPerEpoch false total_batch : ℚ)
        - (datasetSize : ℚ) / (total_batch : ℚ)| ≤ 1/2 ∧
    ∀ m : ℤ,
      |(stepsPerEpoch false total_batch : ℚ)
          - (datasetSize : ℚ) / (total_batch : ℚ)|
        ≤ |(m : ℚ) - (datasetSize : ℚ) / (total_batch : ℚ)| := by
  have hs : stepsPerEpoch false total_batch
      = roundHalfEven ((datasetSize : ℚ) / (total_batch : ℚ)) := rfl
  rw [hs]
  exact ⟨roundHalfEven_dist _, fun m => roundHalfEven_nearest _ m⟩

/-- C7 witness at total batch 256 (candidate integer 5004). -/
theorem C7_witness :
    |(stepsPerEpoch false 256 : ℚ) - (datasetSize : ℚ) / (256 : ℚ)|
        ≤ 1/2 ∧
    |(stepsPerEpoch false 256 : ℚ) - (datasetSize : ℚ) / (256 : ℚ)|
        ≤ |((5004 : ℤ) : ℚ) - (datasetSize : ℚ) / (256 : ℚ)| :=
  ⟨(C7_theorem 256 (by norm_num)).1, (C7_theorem 256 (by norm_num)).2 5004⟩

/-- C8: `build_graph` multiplies the base cost by the loss scale when
the scale differs from 1 and returns it unchanged at scale 1; the
training-mode scale `1/K` therefore rescales the loss by `1/K`, and
with a single worker the loss is exactly the base cost. -/
theorem C8_theorem (cost s : ℚ) (K : ℕ) (hK : 1 ≤ K) :
    (s ≠ 1 → buildGraph cost s = cost * s) ∧
    (s = 1 → buildGraph cost s = cost) ∧
    buildGraph cost (1 / (K : ℚ)) = cost * (1 / (K : ℚ)) ∧
    (K = 1 → buildGraph cost (1 / (K : ℚ)) = cost) := by
  refine ⟨?_, ?_, ?_, ?_⟩
  · intro hs
    unfold buildGraph
    rw [if_pos hs]
  · intro hs
    unfold buildGraph
    rw [if_neg (not_not_intro hs)]
  · by_cases h1 : (1 : ℚ) / (K : ℚ) = 1
    · unfold buildGraph
      rw [if_neg (not_not_intro h1), h1, mul_one]
    · unfold buildGraph
      rw [if_pos h1]
  · intro hk1
    subst hk1
    simp [buildGraph]

/-- C8 witness: base cost 7 with scales 1/2, 1, and worker counts 2
and 1. -/
theorem C8_witness :
    buildGraph 7 (1/2) = 7 * (1/2) ∧ buildGraph 7 1 = 7 ∧
    buildGraph 7 (1 / ((2 : ℕ) : ℚ)) = 7 * (1 / ((2 : ℕ) : ℚ)) ∧
    buildGraph 7 (1 / ((1 : ℕ) : ℚ)) = 7 :=
  ⟨(C8_theorem 7 (1/2) 2 (by norm_num)).1 (by norm_num),
   (C8_theorem 7 1 2 (by norm_num)).2.1 rfl,
   (C8_theorem 7 1 2 (by norm_num)).2.2.1,
   (C8_theorem 7 1 1 (by norm_num)).2.2.2 rfl⟩

/-- C9: in `--eval` mode the validation dataflow is built with the
hard-coded batch 128 — it is the only dataflow batch in the trace, and
the whole trace is unchanged under any value of `--batch`. -/
theorem C9_theorem (args : Args) (hvdSize rank b : ℕ)
    (h : args.eval = true) :
    Event.buildValDataflow 128 ∈ mainTrace args hvdSize rank ∧
    (∀ b2 : ℕ,
      Event.buildValDataflow b2 ∈ mainTrace args hvdSize rank →
        b2 = 128) ∧
    mainTrace { args with batch := b } hvdSize rank
      = mainTrace args hvdSize rank := by
  refine ⟨?_, ?_, ?_⟩
  · simp [mainTrace, h]
  · intro b2 hb2
    simp [mainTrace, h] at hb2
    exact hb2
  · simp [mainTrace, h]

/-- C9 witness: `--eval` with `--batch 32` and with `--batch 999`
produce the same trace, containing the batch-128 dataflow build. -/
theorem C9_witness :
    Event.buildValDataflow 128
        ∈ mainTrace ⟨none, "train_log/tmp", some "ckpt", false, 50,
            true, none, 32⟩ 8 0 ∧
    mainTrace ⟨none, "train_log/tmp", some "ckpt", false, 50, true,
        none, 999⟩ 8 0
      = mainTrace ⟨none, "train_log/tmp", some "ckpt", false, 50, true,
          none, 32⟩ 8 0 :=
  ⟨(C9_theorem ⟨none, "train_log/tmp", some "ckpt", false, 50, true,
      none, 32⟩ 8 0 999 rfl).1,
   (C9_theorem ⟨none, "train_log/tmp", some "ckpt", false, 50, true,
      none, 32⟩ 8 0 999 rfl).2.2⟩

/-- C10: the block-count table maps 50, 101 and 152 to
`[3,4,6,3]`, `[3,4,23,3]` and `[3,8,36,3]`, and the lookup fails
(models `KeyError`) at every other depth. -/
theorem C10_theorem :
    numBlocks 50 = some [3, 4, 6, 3] ∧
    numBlocks 101 = some [3, 4, 23, 3] ∧
    numBlocks 152 = some [3, 8, 36, 3] ∧
    ∀ d : ℕ, d ≠ 50 → d ≠ 101 → d ≠ 152 → numBlocks d = none := by
  refine ⟨rfl, rfl, rfl, ?_⟩
  intro d h50 h101 h152
  have e50 : (d == 50) = false := beq_eq_false_iff_ne.mpr h50
  have e101 : (d == 101) = false := beq_eq_false_iff_ne.mpr h101
  have e152 : (d == 152) = false := beq_eq_false_iff_ne.mpr h152
  simp [numBlocks, num_blocks_dict, List.lookup, e50, e101, e152]

/-- C10 witness: depth 77 is rejected. -/
theorem C10_witness : numBlocks 77 = none :=
  C10_theorem.2.2.2 77 (by norm_num) (by norm_num) (by norm_num)

end ResNetHorovod
